import Mathlib

set_option linter.unusedVariables false

/-!
Verification of the retry/pagination core of the `aws-utils` library
(DynamoTools, S3Tools, SecretManagerTools and the `utils.retry` wrapper).

Modelling conventions, shared by all definitions below:

* Items, pagination keys, JSON values and backend payloads are opaque to the
  orchestration code under verification, so they are modelled as `Nat` tokens
  (`Item`, `Key`, `Json`, ...); buffers are byte lists.
* A backend client is a function from the global invocation index (a clock
  counting every backend call made during one logical operation, in order) and
  the request to a result.  Every execution function threads this clock and
  returns the final clock, so `final - initial` is the number of backend
  invocations observed.  This mirrors the repository's own test harness, whose
  mocks are single stateful functions keyed on call order.
* The promise returned by each operation is modelled by `JsOutcome`:
  `resolved`/`rejected` are the two settled states, `hung` models a promise
  that never settles because an exception escaped a callback, and `outOfFuel`
  is a pure model artifact marking exhaustion of the pagination fuel (the
  JavaScript recursion has no such bound; theorems either supply enough fuel
  or hold for every fuel).
* JavaScript dynamic field attachment (`err.moreInfos = ...`) is modelled by
  the `moreInfos : Option Attach` field of `DynErr`; an assignment replaces
  the previous value, exactly like the JavaScript property write.
* Arguments that the adapters validate with `typeof x === "string"` checks are
  given the Lean type `String` (resp. `Option String` when the JavaScript
  parameter may be `undefined`), so the type checks pass by typing; the
  remaining, semantically meaningful parts of each validation are kept.
-/

/-- Opaque DynamoDB item token. -/
abbrev Item := Nat

/-- Opaque pagination key token (`LastEvaluatedKey` / `ExclusiveStartKey`).
`none` models JavaScript `null`/absent; a present key is a truthy object. -/
abbrev Key := Nat

/-- Opaque JSON value token. -/
abbrev Json := Nat

/-- Byte buffer (Node `Buffer`). -/
abbrev Buf := List Nat

/-- Opaque success payload of `putObject`. -/
abbrev PutResp := Nat

/-- Opaque success payload of `getSecretValue`. -/
abbrev SecretData := Nat

/-- Context blob the adapters attach to errors (the `errObj` literals of
DynamoTools.js).  For `_promiseFunction` it snapshots the method name, table
and the raw query arguments; for `putItem` it snapshots the item instead. -/
structure ErrCtx where
  functionName : String
  table : String
  hashKeyName : Option String
  hashKeyValue : Option String
  esk : Option Key
  item : Option Item
deriving DecidableEq, Repr

/-- Value attached to an error's `moreInfos`/`moreInfo` property: either the
context blob `errObj`, or another error (the fallback client's failure in the
DAX branch of `_promiseFunction`).  An attached error is flattened to its
message, retryable flag and own attachment. -/
inductive Attach where
  | ctx (c : ErrCtx)
  | errNoInfo (message : String) (retryable : Bool)
  | errWithInfo (message : String) (retryable : Bool) (inner : Attach)
deriving DecidableEq, Repr

/-- A JavaScript `Error` as the adapters see it: a message, the
backend-attached `retryable` flag (absent = `false`), and the dynamically
attached context property. -/
structure DynErr where
  message : String
  retryable : Bool
  moreInfos : Option Attach
deriving DecidableEq, Repr

/-- View a whole error as an attachable value (used when `_promiseFunction`
writes `err.moreInfos = errDynamo`). -/
def attachOfErr (e : DynErr) : Attach :=
  match e.moreInfos with
  | none => .errNoInfo e.message e.retryable
  | some a => .errWithInfo e.message e.retryable a

/-- `finalErr.moreInfos = errObj`: attach (replacing any previous attachment)
the context blob to an error. -/
def withCtx (e : DynErr) (c : ErrCtx) : DynErr :=
  { e with moreInfos := some (Attach.ctx c) }

/-- One page of a DynamoDB response.  `items = none` models a payload without
an `Items` field; `lastEvaluatedKey = none` models a null/absent cursor. -/
structure DynData where
  items : Option (List Item)
  lastEvaluatedKey : Option Key
deriving DecidableEq, Repr

/-- Request object built by `_promiseFunction` / `putItem`.  `hashKeyName =
none` models the absence of the `KeyConditionExpression` block; `item` is only
set by `putItem`. -/
structure Params where
  tableName : String
  hashKeyName : Option String
  hashKeyValue : Option String
  exclusiveStartKey : Option Key
  item : Option Item
deriving DecidableEq, Repr

/-- Outcome of an awaited operation (see the module conventions above). -/
inductive JsOutcome (α : Type) where
  | resolved (v : α)
  | rejected (e : DynErr)
  | hung
  | outOfFuel
deriving DecidableEq, Repr

/-- Result of one backend invocation on the document-database side: an error,
a null/undefined payload (`ok none`), or a data payload. -/
abbrev DynResp := Except DynErr (Option DynData)

/-- A document-database client: its `constructor.name` (used by the DAX
detection in `_promiseFunction`) and its behaviour, a function of the invoked
method name (`"query"`, `"scan"`, `"put"`), the global invocation index and
the request. -/
structure DynCli where
  name : String
  beh : String → Nat → Params → DynResp

/-- JavaScript `a || b` on an optional number: `undefined` and `0` are falsy. -/
def jsOrNat (o : Option Nat) (dflt : Nat) : Nat :=
  match o with
  | none => dflt
  | some n => if n = 0 then dflt else n

/-- JavaScript truthiness of an optional string (`undefined`/`null` and the
empty string are falsy). -/
def jsTruthyStr (s : Option String) : Bool :=
  match s with
  | none => false
  | some v => v ≠ ""

/-- Modelled from the spec (§4.1) and the `utils.retry` wrapper: the retry
loop itself lives in the external `async-await-retry` dependency, which is not
part of the repository source; per the spec's contract the primitive makes up
to `maxAttempts` attempts, returns the first success immediately, and after
the final failed attempt propagates that attempt's error unchanged.  The
backoff intervals do not affect outcomes and are not modelled.  With
`maxAttempts = 0` (unreachable from the adapters) it fails without consuming
an attempt. -/
def retryLoop {α : Type} (op : Nat → Except DynErr α) : Nat → Nat → Except DynErr α × Nat
  | 0, clock => (.error { message := "RETRY_NO_ATTEMPT", retryable := false, moreInfos := none }, clock)
  | fuel + 1, clock =>
      match op clock with
      | .ok v => (.ok v, clock + 1)
      | .error e => if fuel = 0 then (.error e, clock + 1) else retryLoop op fuel (clock + 1)

/-- Embeds `utils.retry` (part_002): callers pass `retriesMax` positionally;
when the caller's value is `undefined` the wrapper's own default of 3 applies. -/
def utilsRetry {α : Type} (op : Nat → Except DynErr α) (retriesMax : Option Nat) (clock : Nat) :
    Except DynErr α × Nat :=
  retryLoop op (retriesMax.getD 3) clock

/-- The DynamoTools instance state: primary client, internally constructed
fallback client, and the per-instance retry budget. -/
structure DynamoTools where
  cli : DynCli
  cliFallback : DynCli
  retryMax : Nat

/-- Embeds the `DynamoTools` constructor (DynamoTools.js:17-23): the fallback
client is a fresh `aws.DynamoDB.DocumentClient` (so its constructor name is
`DocumentClient`); its behaviour is the external DynamoDB service, a model
parameter.  `retryMax` is `opt.retryMax || 5`. -/
def mkDynamoTools (cli : DynCli) (optRetryMax : Option Nat)
    (fallbackBeh : String → Nat → Params → DynResp) : DynamoTools :=
  { cli := cli
    cliFallback := { name := "DocumentClient", beh := fallbackBeh }
    retryMax := jsOrNat optRetryMax 5 }

/-- Request construction in `_promiseFunction` (DynamoTools.js:135-155): the
`KeyConditionExpression` block is added only when `hashKeyName` is truthy, and
`ExclusiveStartKey` only when the cursor is not null. -/
def mkParams (table : String) (hk hv : Option String) (esk : Option Key) : Params :=
  if jsTruthyStr hk then
    { tableName := table, hashKeyName := hk, hashKeyValue := hv
      exclusiveStartKey := esk, item := none }
  else
    { tableName := table, hashKeyName := none, hashKeyValue := none
      exclusiveStartKey := esk, item := none }

/-- The `TypeError` thrown by `_collecData` when the success payload is
null/undefined: `data && data.Items` guards the item loop, but
`data.LastEvaluatedKey` is then read unconditionally. -/
def nullDataTypeError : DynErr :=
  { message := "TypeError: Cannot read properties of null", retryable := false, moreInfos := none }

/-- Embeds `_collecData` (DynamoTools.js:225-235).  The recursive call back
into `_promiseFunction` (pagination) is abstracted as the `promiseAgain`
parameter and tied at `promiseFunction` below.  A null payload makes the
(async) function throw, which its awaiter observes as a rejection. -/
def collecData (promiseAgain : Key → List Item → DynCli → Nat → JsOutcome (List Item) × Nat)
    (data : Option DynData) (results : List Item) (cli : DynCli) (clock : Nat) :
    JsOutcome (List Item) × Nat :=
  match data with
  | none => (.rejected nullDataTypeError, clock)
  | some d =>
      let results2 := results ++ d.items.getD []
      match d.lastEvaluatedKey with
      | some k => promiseAgain k results2 cli clock
      | none => (.resolved results2, clock)

/-- Embeds `_execute` (DynamoTools.js:205-211): retry the backend method with
the unchanged request through `utils.retry` (budget `this.retryMax`), then
collect the successful payload.  A failure of the retry, or an exception
escaping `_collecData`, rejects the awaited `_execute` call. -/
def execute (retryMax : Nat) (AWSMethod : String)
    (promiseAgain : Key → List Item → DynCli → Nat → JsOutcome (List Item) × Nat)
    (params : Params) (results : List Item) (cli : DynCli) (clock : Nat) :
    JsOutcome (List Item) × Nat :=
  match utilsRetry (fun n => cli.beh AWSMethod n params) (some retryMax) clock with
  | (.error e, c) => (.rejected e, c)
  | (.ok data, c) => collecData promiseAgain data results cli c

/-- Embeds the body of `_promiseFunction` (DynamoTools.js:113-191), with the
pagination re-entry abstracted as `promiseAgain`:

* the `queryHashKey` validation (line 129) — the `typeof` string checks are
  discharged by typing, leaving the requirement that the hash key name and
  value are present (the errObj is stored on the error's attachment slot; the
  JavaScript property is named `more_infos_queryHashKey` there);
* on first-attempt success, `await _collecData` then resolve; an exception or
  rejection inside that await escapes the async callback unhandled, so the
  promise never settles (`hung`);
* on a retryable first error, `_execute` against the current client; if that
  rejects and the client's constructor name is `AmazonDaxClient`, `_execute`
  against the fallback client; if the fallback also rejects, its error is
  written to `err.moreInfos` and then immediately overwritten by `errObj`
  (lines 175 and 182), so the rejected error is the primary's retry error
  carrying only the context blob;
* a non-retryable first error is rejected at once, with `errObj` attached. -/
def promiseStep (dt : DynamoTools) (AWSMethod method table : String) (hk hv : Option String)
    (promiseAgain : Key → List Item → DynCli → Nat → JsOutcome (List Item) × Nat)
    (esk : Option Key) (results : List Item) (cliArg : Option DynCli) (clock : Nat) :
    JsOutcome (List Item) × Nat :=
  let AWSCli := cliArg.getD dt.cli
  let errObj : ErrCtx :=
    { functionName := method, table := table, hashKeyName := hk
      hashKeyValue := hv, esk := esk, item := none }
  if method = "queryHashKey" ∧ (hk = none ∨ hv = none) then
    (.rejected { message := "BAD_PARAM", retryable := false, moreInfos := some (.ctx errObj) }, clock)
  else
    let params := mkParams table hk hv esk
    match AWSCli.beh AWSMethod clock params with
    | .ok data =>
        match collecData promiseAgain data results AWSCli (clock + 1) with
        | (.resolved rs, c2) => (.resolved rs, c2)
        | (.rejected _, c2) => (.hung, c2)
        | (.hung, c2) => (.hung, c2)
        | (.outOfFuel, c2) => (.outOfFuel, c2)
    | .error e =>
        if e.retryable then
          match execute dt.retryMax AWSMethod promiseAgain params results AWSCli (clock + 1) with
          | (.resolved rs, c2) => (.resolved rs, c2)
          | (.rejected err2, c2) =>
              if AWSCli.name = "AmazonDaxClient" then
                match execute dt.retryMax AWSMethod promiseAgain params results dt.cliFallback c2 with
                | (.resolved rs, c3) => (.resolved rs, c3)
                | (.rejected errDynamo, c3) =>
                    let err3 := { err2 with moreInfos := some (attachOfErr errDynamo) }
                    (.rejected (withCtx err3 errObj), c3)
                | (.hung, c3) => (.hung, c3)
                | (.outOfFuel, c3) => (.outOfFuel, c3)
              else (.rejected (withCtx err2 errObj), c2)
          | (.hung, c2) => (.hung, c2)
          | (.outOfFuel, c2) => (.outOfFuel, c2)
        else (.rejected (withCtx e errObj), clock + 1)

/-- Embeds `_promiseFunction` including the mutual recursion with
`_collecData`/`_execute`: a pagination re-entry keeps the same tools instance,
method names, table and hash-key arguments, and runs with the client that
produced the cursor; the `fuel` bound on the page count is a model artifact
(see module conventions). -/
def promiseFunction (dt : DynamoTools) (AWSMethod method table : String) (hk hv : Option String) :
    Nat → Option Key → List Item → Option DynCli → Nat → JsOutcome (List Item) × Nat
  | 0, esk, results, cliArg, clock =>
      promiseStep dt AWSMethod method table hk hv
        (fun _ _ _ c => (.outOfFuel, c)) esk results cliArg clock
  | fuel + 1, esk, results, cliArg, clock =>
      promiseStep dt AWSMethod method table hk hv
        (fun k rs cli2 c =>
          promiseFunction dt AWSMethod method table hk hv fuel (some k) rs (some cli2) c)
        esk results cliArg clock

/-- Embeds `queryHashKey` (DynamoTools.js:34-36).  The source forwards
`exclusiveStartKey = null, results = [], cli = null`: these are assignment
expressions, so `_promiseFunction` receives `null`, `[]`, `null` and the
caller's last three arguments are discarded. -/
def queryHashKey (dt : DynamoTools) (table : String) (hk hv : Option String)
    (exclusiveStartKey : Option Key) (results : List Item) (cliArg : Option DynCli)
    (fuel clock : Nat) : JsOutcome (List Item) × Nat :=
  promiseFunction dt "query" "queryHashKey" table hk hv fuel none [] none clock

/-- Embeds `scan` (DynamoTools.js:97-99): all arguments are forwarded. -/
def scan (dt : DynamoTools) (table : String) (hk hv : Option String)
    (exclusiveStartKey : Option Key) (results : List Item) (cliArg : Option DynCli)
    (fuel clock : Nat) : JsOutcome (List Item) × Nat :=
  promiseFunction dt "scan" "scan" table hk hv fuel exclusiveStartKey results cliArg clock

/-- Embeds `putItem` (DynamoTools.js:44-85).  The `typeof`/`Array.isArray`
validation is discharged by typing.  Note the error flow: the first attempt's
error gets `errObj` attached immediately; if it is retryable and the retry
also fails, the retry's error only receives a dead-store attachment inside the
catch block, and the subsequent `reject(err)` rejects the outer, first-attempt
error. -/
def putItem (dt : DynamoTools) (table : String) (item : Item) (clock : Nat) :
    JsOutcome Unit × Nat :=
  let errObj : ErrCtx :=
    { functionName := "putItem", table := table, hashKeyName := none
      hashKeyValue := none, esk := none, item := some item }
  let param : Params :=
    { tableName := table, hashKeyName := none, hashKeyValue := none
      exclusiveStartKey := none, item := some item }
  match dt.cli.beh "put" clock param with
  | .ok _ => (.resolved (), clock + 1)
  | .error e =>
      let eOuter := withCtx e errObj
      if e.retryable then
        match utilsRetry (fun n => dt.cli.beh "put" n param) (some dt.retryMax) (clock + 1) with
        | (.ok _, c) => (.resolved (), c)
        | (.error _, c) => (.rejected eOuter, c)
      else (.rejected eOuter, clock + 1)

/-- A successful `getObject` backend payload: `body = none` models a missing
`Body` or a non-Buffer body (the source checks
`!data.Body || !Buffer.isBuffer(data.Body)`). -/
structure S3Data where
  body : Option Buf
deriving DecidableEq, Repr

/-- `getObject` request. -/
structure S3Params where
  bucket : String
  key : String
deriving DecidableEq, Repr

/-- `putObject` request (`Body` is `JSON.stringify(json)`, content type
`application/json`). -/
structure S3PutParams where
  bucket : String
  key : String
  body : String
deriving DecidableEq, Repr

/-- An S3 client: behaviours of its `getObject` and `putObject` methods as
functions of the global invocation index and the request. -/
structure S3Cli where
  behGet : Nat → S3Params → Except DynErr S3Data
  behPut : Nat → S3PutParams → Except DynErr PutResp

/-- The S3Tools instance state (part_001:13-17): `retryMax` is
`opt.retryMax || 5`. -/
structure S3Tools where
  cli : S3Cli
  retryMax : Nat

/-- Embeds the `S3Tools` constructor. -/
def mkS3Tools (cli : S3Cli) (optRetryMax : Option Nat) : S3Tools :=
  { cli := cli, retryMax := jsOrNat optRetryMax 5 }

/-- External JavaScript collaborators used by `formatGetObjectResponse`:
zlib decompression, buffer-to-string decoding, `JSON.parse` (an `error`
models a thrown parse exception) and `JSON.stringify`.  They are model
parameters; the claims below hold for every instantiation they quantify
over. -/
structure JsEnv where
  gunzip : Buf → Except DynErr Buf
  bufToString : Buf → String
  jsonParse : String → Except DynErr Json
  stringify : Json → String

/-- The error `zlib.gunzip` reports when handed a null/undefined body (the
repository's own tests observe message `unexpected end of file`). -/
def gunzipNullErr : DynErr :=
  { message := "unexpected end of file", retryable := false, moreInfos := none }

/-- The `TypeError` thrown by `data.Body.toString()` when `Body` is
null/undefined. -/
def nullBodyTypeError : DynErr :=
  { message := "TypeError: Cannot read properties of undefined", retryable := false, moreInfos := none }

/-- Shapes `getObject` can resolve with, per `formatGetObjectResponse`:
a raw (possibly absent) buffer, a decoded string, a parsed JSON value, or the
whole payload (default branch). -/
inductive S3Response where
  | buf (b : Option Buf)
  | str (s : String)
  | obj (j : Json)
  | all (d : S3Data)
deriving DecidableEq, Repr

/-- `FILE_NOT_FOUND`. -/
def fileNotFound : DynErr :=
  { message := "FILE_NOT_FOUND", retryable := false, moreInfos := none }

/-- `S3_TOOLS_BAD_PARAM_GetObject`. -/
def badParamGetObject : DynErr :=
  { message := "S3_TOOLS_BAD_PARAM_GetObject", retryable := false, moreInfos := none }

/-- `S3_TOOLS_BAD_PARAM_PutObject`. -/
def badParamPutObject : DynErr :=
  { message := "S3_TOOLS_BAD_PARAM_PutObject", retryable := false, moreInfos := none }

/-- `GET_OBJECT_RETURN_TYPE_ALLOWED` (part_001:10). -/
def getObjectReturnTypeAllowed : List String := ["string", "buffer", "object", "all"]

/-- Embeds `formatGetObjectResponse` (part_001:102-131).  Notes, faithful to
the source:

* `"buffer"` without gzip resolves the body as-is, even when it is absent;
* `"string"`/`"object"` without gzip call `data.Body.toString()`, which throws
  a `TypeError` inside the promise executor (hence a rejection) when the body
  is absent; a `JSON.parse` failure in the executor also rejects;
* with gzip, `zlib.gunzip` reports an error for an absent body (rejection);
  a `JSON.parse` failure inside the zlib callback of the `"object"` branch is
  an unhandled throw, so that promise never settles (`hung`);
* any other return type falls into the default branch and resolves the whole
  payload. -/
def formatGetObjectResponse (env : JsEnv) (data : S3Data) (returnType : String) (gzip : Bool) :
    JsOutcome S3Response :=
  if returnType = "buffer" then
    if gzip then
      match data.body with
      | none => .rejected gunzipNullErr
      | some b =>
          match env.gunzip b with
          | .ok g => .resolved (.buf (some g))
          | .error e => .rejected e
    else .resolved (.buf data.body)
  else if returnType = "string" then
    if gzip then
      match data.body with
      | none => .rejected gunzipNullErr
      | some b =>
          match env.gunzip b with
          | .ok g => .resolved (.str (env.bufToString g))
          | .error e => .rejected e
    else
      match data.body with
      | none => .rejected nullBodyTypeError
      | some b => .resolved (.str (env.bufToString b))
  else if returnType = "object" then
    if gzip then
      match data.body with
      | none => .rejected gunzipNullErr
      | some b =>
          match env.gunzip b with
          | .error e => .rejected e
          | .ok g =>
              match env.jsonParse (env.bufToString g) with
              | .ok j => .resolved (.obj j)
              | .error _ => .hung
    else
      match data.body with
      | none => .rejected nullBodyTypeError
      | some b =>
          match env.jsonParse (env.bufToString b) with
          | .ok j => .resolved (.obj j)
          | .error e => .rejected e
  else .resolved (.all data)

/-- Embeds `S3Tools.getObject` (part_001:27-58).  The `typeof` checks are
discharged by typing; the return-type whitelist check is kept.  On
first-attempt success the absent-body check runs before formatting; on the
retry-success path the retried payload is formatted directly, with no body
check. -/
def getObject (env : JsEnv) (s3 : S3Tools) (bucket key returnType : String) (gzip : Bool)
    (clock : Nat) : JsOutcome S3Response × Nat :=
  if returnType ∈ getObjectReturnTypeAllowed then
    let param : S3Params := { bucket := bucket, key := key }
    match s3.cli.behGet clock param with
    | .error e =>
        if e.retryable then
          match utilsRetry (fun n => s3.cli.behGet n param) (some s3.retryMax) (clock + 1) with
          | (.ok data, c) =>
              match formatGetObjectResponse env data returnType gzip with
              | .resolved r => (.resolved r, c)
              | .rejected e2 => (.rejected e2, c)
              | .hung => (.hung, c)
              | .outOfFuel => (.outOfFuel, c)
          | (.error e2, c) => (.rejected e2, c)
        else (.rejected e, clock + 1)
    | .ok data =>
        if data.body = none then (.rejected fileNotFound, clock + 1)
        else
          match formatGetObjectResponse env data returnType gzip with
          | .resolved r => (.resolved r, clock + 1)
          | .rejected e2 => (.rejected e2, clock + 1)
          | .hung => (.hung, clock + 1)
          | .outOfFuel => (.outOfFuel, clock + 1)
  else (.rejected badParamGetObject, clock)

/-- Embeds `S3Tools.putJsonObject` (part_001:67-92). -/
def putJsonObject (env : JsEnv) (s3 : S3Tools) (bucket key : String) (json : Json)
    (clock : Nat) : JsOutcome PutResp × Nat :=
  let param : S3PutParams := { bucket := bucket, key := key, body := env.stringify json }
  match s3.cli.behPut clock param with
  | .ok d => (.resolved d, clock + 1)
  | .error e =>
      if e.retryable then
        match utilsRetry (fun n => s3.cli.behPut n param) (some s3.retryMax) (clock + 1) with
        | (.ok d, c) => (.resolved d, c)
        | (.error e2, c) => (.rejected e2, c)
      else (.rejected e, clock + 1)

/-- A SecretsManager client: behaviour of `getSecretValue` as a function of
the global invocation index and the `SecretId`. -/
structure SMCli where
  beh : Nat → String → Except DynErr SecretData

/-- The SecretManagerTools instance state.  The constructor (part_001:138-140)
only stores the client: `this.retryMax` is never assigned, so the field is
`undefined`. -/
structure SecretManagerTools where
  cli : SMCli
  retryMax : Option Nat

/-- Embeds the `SecretManagerTools` constructor: `retryMax` stays unset. -/
def mkSecretManagerTools (cli : SMCli) : SecretManagerTools :=
  { cli := cli, retryMax := none }

/-- Embeds `SecretManagerTools.getSecretValue` (part_001:142-166).  The
`typeof secretName` check is discharged by typing.  The retry call passes
`this.retryMax` — `undefined` — so `utils.retry`'s own default of 3 applies. -/
def getSecretValue (sm : SecretManagerTools) (secretName : String) (clock : Nat) :
    JsOutcome SecretData × Nat :=
  match sm.cli.beh clock secretName with
  | .ok d => (.resolved d, clock + 1)
  | .error e =>
      if e.retryable then
        match utilsRetry (fun n => sm.cli.beh n secretName) sm.retryMax (clock + 1) with
        | (.ok d, c) => (.resolved d, c)
        | (.error e2, c) => (.rejected e2, c)
      else (.rejected e, clock + 1)

/-- The continuation guard of the newer `_collectData`
(src/jest.config.js:558): `limit == null || limit > results.Items.length`.
JavaScript's loose `limit == null` is true only for null/undefined (`none`);
a limit of 0 is NOT null there, and `0 > length` never holds, so `some 0`
blocks continuation. -/
def belowCeiling (ceiling : Option Nat) (n : Nat) : Bool :=
  match ceiling with
  | none => true
  | some c => n < c

/-- A document-database client that fails every invocation with the error
stream `errs` (each global invocation `n` gets `errs n`). -/
def errCli (name : String) (errs : Nat → DynErr) : DynCli :=
  { name := name, beh := fun _ n _ => Except.error (errs n) }

/-- An object-store client that fails every invocation with the error stream
`errs`. -/
def errS3Cli (errs : Nat → DynErr) : S3Cli :=
  { behGet := fun n _ => Except.error (errs n), behPut := fun n _ => Except.error (errs n) }

/-- A secret-store client that fails every invocation with the error stream
`errs`. -/
def errSMCli (errs : Nat → DynErr) : SMCli := { beh := fun n _ => Except.error (errs n) }

/-- A transient (retryable-flagged) backend error. -/
def transientErr : DynErr := { message := "transient failure", retryable := true, moreInfos := none }

/-- The constant stream of `transientErr`. -/
def transientErrs : Nat → DynErr := fun _ => transientErr

/-- A permanent backend error (no retryable flag). -/
def permanentErr : DynErr := { message := "permanent failure", retryable := false, moreInfos := none }

/-- A trivial instantiation of the external JavaScript collaborators, used by
concrete runs whose paths never reach them. -/
def envTrivial : JsEnv :=
  { gunzip := fun b => .ok b, bufToString := fun _ => "", jsonParse := fun _ => .ok 0
    stringify := fun _ => "" }

/-- A fallback behaviour that always fails (used where the fallback must not
matter). -/
def fbNone : String → Nat → Params → DynResp := fun _ _ _ => Except.error transientErr

/-- `opt.retryMax || 5` keeps a positive override unchanged. -/
theorem jsOrNat_of_pos (B d : Nat) (h : 1 ≤ B) : jsOrNat (some B) d = B := by
  simp only [jsOrNat]
  rw [if_neg (by omega)]

/-- The retry primitive, run against an operation that fails every attempt,
consumes exactly its attempt budget and returns the final attempt's error. -/
theorem retryLoop_allFail {α : Type} (errs : Nat → DynErr) :
    ∀ (fuel clock : Nat),
      retryLoop (α := α) (fun n => Except.error (errs n)) (fuel + 1) clock
        = (Except.error (errs (clock + fuel)), clock + fuel + 1) := by
  intro fuel
  induction fuel with
  | zero => intro clock; simp [retryLoop]
  | succ f ih =>
      intro clock
      rw [retryLoop]
      simp only [Nat.succ_ne_zero, if_false]
      rw [ih (clock + 1)]
      have h1 : clock + 1 + f = clock + (f + 1) := by omega
      rw [h1]

/-- The retry primitive returns an immediate first-attempt success after one
invocation. -/
theorem retryLoop_firstOk {α : Type} (op : Nat → Except DynErr α) (v : α) (fuel clock : Nat)
    (h : op clock = .ok v) :
    retryLoop op (fuel + 1) clock = (.ok v, clock + 1) := by
  rw [retryLoop, h]

/-- `_promiseFunction` body, non-DAX primary, first error retryable, every
retry failing: it rejects the final retry error with the context blob
attached, after `1 + retryMax` invocations, for every fallback client. -/
theorem promiseStep_allFail_noDax (dt : DynamoTools) (AWSMethod method table : String)
    (hk hv : Option String)
    (pa : Key → List Item → DynCli → Nat → JsOutcome (List Item) × Nat)
    (esk : Option Key) (results : List Item) (clock : Nat)
    (errs : Nat → DynErr)
    (hcli : ¬ dt.cli.name = "AmazonDaxClient")
    (hbeh : ∀ n p, dt.cli.beh AWSMethod n p = .error (errs n))
    (hr : (errs clock).retryable = true)
    (hval : ¬(method = "queryHashKey" ∧ (hk = none ∨ hv = none)))
    (hmax : 1 ≤ dt.retryMax) :
    promiseStep dt AWSMethod method table hk hv pa esk results none clock
      = (.rejected (withCtx (errs (clock + dt.retryMax))
          { functionName := method, table := table, hashKeyName := hk
            hashKeyValue := hv, esk := esk, item := none }), clock + dt.retryMax + 1) := by
  obtain ⟨R, hR⟩ : ∃ R, dt.retryMax = R + 1 := ⟨dt.retryMax - 1, by omega⟩
  have hop : (fun n => dt.cli.beh AWSMethod n (mkParams table hk hv esk))
      = fun n => Except.error (errs n) := funext (fun n => hbeh n _)
  simp only [promiseStep, Option.getD, if_neg hval, hbeh clock, hr, if_true,
    execute, utilsRetry, hop, hR, retryLoop_allFail, if_neg hcli]
  have h1 : clock + 1 + R = clock + (R + 1) := by omega
  rw [h1]

/-- `_promiseFunction` body, DAX primary, both the primary's and the
fallback's retries exhausted: the rejected error is the primary's final retry
error with only the context blob attached (the fallback's error, assigned to
`moreInfos` first, is overwritten), after `1 + 2 * retryMax` invocations. -/
theorem promiseStep_allFail_dax (dt : DynamoTools) (AWSMethod method table : String)
    (hk hv : Option String)
    (pa : Key → List Item → DynCli → Nat → JsOutcome (List Item) × Nat)
    (esk : Option Key) (results : List Item) (clock : Nat)
    (errs fErrs : Nat → DynErr)
    (hcli : dt.cli.name = "AmazonDaxClient")
    (hbeh : ∀ n p, dt.cli.beh AWSMethod n p = .error (errs n))
    (hfb : ∀ n p, dt.cliFallback.beh AWSMethod n p = .error (fErrs n))
    (hr : (errs clock).retryable = true)
    (hval : ¬(method = "queryHashKey" ∧ (hk = none ∨ hv = none)))
    (hmax : 1 ≤ dt.retryMax) :
    promiseStep dt AWSMethod method table hk hv pa esk results none clock
      = (.rejected (withCtx (errs (clock + dt.retryMax))
          { functionName := method, table := table, hashKeyName := hk
            hashKeyValue := hv, esk := esk, item := none }),
         clock + 2 * dt.retryMax + 1) := by
  obtain ⟨R, hR⟩ : ∃ R, dt.retryMax = R + 1 := ⟨dt.retryMax - 1, by omega⟩
  have hop : (fun n => dt.cli.beh AWSMethod n (mkParams table hk hv esk))
      = fun n => Except.error (errs n) := funext (fun n => hbeh n _)
  have hop2 : (fun n => dt.cliFallback.beh AWSMethod n (mkParams table hk hv esk))
      = fun n => Except.error (fErrs n) := funext (fun n => hfb n _)
  simp only [promiseStep, Option.getD, if_neg hval, hbeh clock, hr, if_true,
    execute, utilsRetry, hop, hop2, hR, retryLoop_allFail, hcli, if_pos, withCtx]
  have h1 : clock + 1 + R = clock + (R + 1) := by omega
  rw [h1]
  congr 1
  omega

/-- `_promiseFunction` body, DAX primary whose retries exhaust, fallback
returning a single successful final page: the call resolves with the
accumulated items from the fallback. -/
theorem promiseStep_dax_fallback_ok (dt : DynamoTools) (AWSMethod method table : String)
    (hk hv : Option String)
    (pa : Key → List Item → DynCli → Nat → JsOutcome (List Item) × Nat)
    (esk : Option Key) (results : List Item) (clock : Nat)
    (errs : Nat → DynErr) (L : List Item)
    (hcli : dt.cli.name = "AmazonDaxClient")
    (hbeh : ∀ n p, dt.cli.beh AWSMethod n p = .error (errs n))
    (hfb : ∀ n p, dt.cliFallback.beh AWSMethod n p
        = .ok (some { items := some L, lastEvaluatedKey := none }))
    (hr : (errs clock).retryable = true)
    (hval : ¬(method = "queryHashKey" ∧ (hk = none ∨ hv = none)))
    (hmax : 1 ≤ dt.retryMax) :
    promiseStep dt AWSMethod method table hk hv pa esk results none clock
      = (.resolved (results ++ L), clock + dt.retryMax + 2) := by
  obtain ⟨R, hR⟩ : ∃ R, dt.retryMax = R + 1 := ⟨dt.retryMax - 1, by omega⟩
  have hop : (fun n => dt.cli.beh AWSMethod n (mkParams table hk hv esk))
      = fun n => Except.error (errs n) := funext (fun n => hbeh n _)
  have hop2 : (fun n => dt.cliFallback.beh AWSMethod n (mkParams table hk hv esk))
      = fun n => Except.ok (some (⟨some L, none⟩ : DynData)) := funext (fun n => hfb n _)
  simp only [promiseStep, Option.getD, if_neg hval, hbeh clock, hr, if_true,
    execute, utilsRetry, hop, hop2, hR, retryLoop_allFail, retryLoop, hcli, if_pos,
    collecData, Option.getD]
  have h2 : clock + 1 + R + 1 + 1 = clock + (R + 1) + 2 := by omega
  rw [h2]

/-- Lift of `promiseStep_allFail_noDax` through `promiseFunction`, for any
pagination fuel (the failing run never paginates). -/
theorem promiseFunction_allFail_noDax (dt : DynamoTools) (AWSMethod method table : String)
    (hk hv : Option String) (esk : Option Key) (results : List Item) (fuel clock : Nat)
    (errs : Nat → DynErr)
    (hcli : ¬ dt.cli.name = "AmazonDaxClient")
    (hbeh : ∀ n p, dt.cli.beh AWSMethod n p = .error (errs n))
    (hr : (errs clock).retryable = true)
    (hval : ¬(method = "queryHashKey" ∧ (hk = none ∨ hv = none)))
    (hmax : 1 ≤ dt.retryMax) :
    promiseFunction dt AWSMethod method table hk hv fuel esk results none clock
      = (.rejected (withCtx (errs (clock + dt.retryMax))
          { functionName := method, table := table, hashKeyName := hk
            hashKeyValue := hv, esk := esk, item := none }), clock + dt.retryMax + 1) := by
  cases fuel with
  | zero =>
      simp only [promiseFunction]
      exact promiseStep_allFail_noDax dt AWSMethod method table hk hv _ esk results clock errs
        hcli hbeh hr hval hmax
  | succ f =>
      simp only [promiseFunction]
      exact promiseStep_allFail_noDax dt AWSMethod method table hk hv _ esk results clock errs
        hcli hbeh hr hval hmax

/-- Lift of `promiseStep_allFail_dax` through `promiseFunction`. -/
theorem promiseFunction_allFail_dax (dt : DynamoTools) (AWSMethod method table : String)
    (hk hv : Option String) (esk : Option Key) (results : List Item) (fuel clock : Nat)
    (errs fErrs : Nat → DynErr)
    (hcli : dt.cli.name = "AmazonDaxClient")
    (hbeh : ∀ n p, dt.cli.beh AWSMethod n p = .error (errs n))
    (hfb : ∀ n p, dt.cliFallback.beh AWSMethod n p = .error (fErrs n))
    (hr : (errs clock).retryable = true)
    (hval : ¬(method = "queryHashKey" ∧ (hk = none ∨ hv = none)))
    (hmax : 1 ≤ dt.retryMax) :
    promiseFunction dt AWSMethod method table hk hv fuel esk results none clock
      = (.rejected (withCtx (errs (clock + dt.retryMax))
          { functionName := method, table := table, hashKeyName := hk
            hashKeyValue := hv, esk := esk, item := none }),
         clock + 2 * dt.retryMax + 1) := by
  cases fuel with
  | zero =>
      simp only [promiseFunction]
      exact promiseStep_allFail_dax dt AWSMethod method table hk hv _ esk results clock errs fErrs
        hcli hbeh hfb hr hval hmax
  | succ f =>
      simp only [promiseFunction]
      exact promiseStep_allFail_dax dt AWSMethod method table hk hv _ esk results clock errs fErrs
        hcli hbeh hfb hr hval hmax

/-- Lift of `promiseStep_dax_fallback_ok` through `promiseFunction`. -/
theorem promiseFunction_dax_fallback_ok (dt : DynamoTools) (AWSMethod method table : String)
    (hk hv : Option String) (esk : Option Key) (results : List Item) (fuel clock : Nat)
    (errs : Nat → DynErr) (L : List Item)
    (hcli : dt.cli.name = "AmazonDaxClient")
    (hbeh : ∀ n p, dt.cli.beh AWSMethod n p = .error (errs n))
    (hfb : ∀ n p, dt.cliFallback.beh AWSMethod n p
        = .ok (some { items := some L, lastEvaluatedKey := none }))
    (hr : (errs clock).retryable = true)
    (hval : ¬(method = "queryHashKey" ∧ (hk = none ∨ hv = none)))
    (hmax : 1 ≤ dt.retryMax) :
    promiseFunction dt AWSMethod method table hk hv fuel esk results none clock
      = (.resolved (results ++ L), clock + dt.retryMax + 2) := by
  cases fuel with
  | zero =>
      simp only [promiseFunction]
      exact promiseStep_dax_fallback_ok dt AWSMethod method table hk hv _ esk results clock errs L
        hcli hbeh hfb hr hval hmax
  | succ f =>
      simp only [promiseFunction]
      exact promiseStep_dax_fallback_ok dt AWSMethod method table hk hv _ esk results clock errs L
        hcli hbeh hfb hr hval hmax

/-- `putItem` against a backend failing every attempt with retryable errors:
after `1 + retryMax` invocations it rejects the FIRST attempt's error (the
outer `err` of the callback), context attached. -/
theorem putItem_allFail (dt : DynamoTools) (table : String) (item : Item) (errs : Nat → DynErr)
    (hbeh : ∀ n p, dt.cli.beh "put" n p = .error (errs n))
    (hr0 : (errs 0).retryable = true) (hmax : 1 ≤ dt.retryMax) :
    putItem dt table item 0
      = (.rejected (withCtx (errs 0)
          { functionName := "putItem", table := table, hashKeyName := none
            hashKeyValue := none, esk := none, item := some item }), dt.retryMax + 1) := by
  obtain ⟨R, hR⟩ : ∃ R, dt.retryMax = R + 1 := ⟨dt.retryMax - 1, by omega⟩
  have hop : (fun n => dt.cli.beh "put" n
      { tableName := table, hashKeyName := none, hashKeyValue := none
        exclusiveStartKey := none, item := some item })
      = fun n => Except.error (errs n) := funext (fun n => hbeh n _)
  simp only [putItem, hbeh 0, hr0, if_true, utilsRetry, Option.getD, hop, hR,
    retryLoop_allFail]
  congr 1
  omega

/-- `getObject` against a backend failing every attempt with retryable
errors: after `1 + retryMax` invocations it rejects the final retry error
unchanged. -/
theorem getObject_allFail (env : JsEnv) (s3 : S3Tools) (bucket okey rt : String) (gzip : Bool)
    (errs : Nat → DynErr)
    (hbeh : ∀ n p, s3.cli.behGet n p = .error (errs n))
    (hr0 : (errs 0).retryable = true)
    (hrt : rt ∈ getObjectReturnTypeAllowed)
    (hmax : 1 ≤ s3.retryMax) :
    getObject env s3 bucket okey rt gzip 0 = (.rejected (errs s3.retryMax), s3.retryMax + 1) := by
  obtain ⟨R, hR⟩ : ∃ R, s3.retryMax = R + 1 := ⟨s3.retryMax - 1, by omega⟩
  have hop : (fun n => s3.cli.behGet n { bucket := bucket, key := okey })
      = fun n => Except.error (errs n) := funext (fun n => hbeh n _)
  simp only [getObject, if_pos hrt, hbeh 0, hr0, if_true, utilsRetry, Option.getD, hop, hR,
    retryLoop_allFail]
  have h1 : 0 + 1 + R = R + 1 := by omega
  rw [h1]

/-- `putJsonObject` against a backend failing every attempt with retryable
errors: after `1 + retryMax` invocations it rejects the final retry error
unchanged. -/
theorem putJsonObject_allFail (env : JsEnv) (s3 : S3Tools) (bucket okey : String) (json : Json)
    (errs : Nat → DynErr)
    (hbeh : ∀ n p, s3.cli.behPut n p = .error (errs n))
    (hr0 : (errs 0).retryable = true)
    (hmax : 1 ≤ s3.retryMax) :
    putJsonObject env s3 bucket okey json 0 = (.rejected (errs s3.retryMax), s3.retryMax + 1) := by
  obtain ⟨R, hR⟩ : ∃ R, s3.retryMax = R + 1 := ⟨s3.retryMax - 1, by omega⟩
  have hop : (fun n => s3.cli.behPut n { bucket := bucket, key := okey, body := env.stringify json })
      = fun n => Except.error (errs n) := funext (fun n => hbeh n _)
  simp only [putJsonObject, hbeh 0, hr0, if_true, utilsRetry, Option.getD, hop, hR,
    retryLoop_allFail]
  have h1 : 0 + 1 + R = R + 1 := by omega
  rw [h1]

/-- `getSecretValue` against a backend failing every attempt with retryable
errors: `this.retryMax` is undefined, so the retry wrapper's default of 3
applies — 4 invocations in total, final error rejected unchanged. -/
theorem getSecretValue_allFail (sm : SecretManagerTools) (secret : String)
    (errs : Nat → DynErr)
    (hbeh : ∀ n s, sm.cli.beh n s = .error (errs n))
    (hr0 : (errs 0).retryable = true)
    (hfield : sm.retryMax = none) :
    getSecretValue sm secret 0 = (.rejected (errs 3), 4) := by
  have hop : (fun n => sm.cli.beh n secret)
      = fun n => Except.error (errs n) := funext (fun n => hbeh n _)
  simp only [getSecretValue, hbeh 0, hr0, if_true, utilsRetry, hfield, Option.getD, hop]
  simp [retryLoop]

/-- `_promiseFunction` body with a non-retryable first error: a single
invocation, immediate rejection with the context blob attached, for every
fallback client. -/
theorem promiseStep_nonRetryable (dt : DynamoTools) (AWSMethod method table : String)
    (hk hv : Option String)
    (pa : Key → List Item → DynCli → Nat → JsOutcome (List Item) × Nat)
    (esk : Option Key) (results : List Item) (clock : Nat) (e : DynErr)
    (hbeh : dt.cli.beh AWSMethod clock (mkParams table hk hv esk) = .error e)
    (hr : e.retryable = false)
    (hval : ¬(method = "queryHashKey" ∧ (hk = none ∨ hv = none))) :
    promiseStep dt AWSMethod method table hk hv pa esk results none clock
      = (.rejected (withCtx e
          { functionName := method, table := table, hashKeyName := hk
            hashKeyValue := hv, esk := esk, item := none }), clock + 1) := by
  simp only [promiseStep, Option.getD, if_neg hval, hbeh, hr]
  simp

/-- Lift of `promiseStep_nonRetryable` through `promiseFunction`. -/
theorem promiseFunction_nonRetryable (dt : DynamoTools) (AWSMethod method table : String)
    (hk hv : Option String) (esk : Option Key) (results : List Item) (fuel clock : Nat)
    (e : DynErr)
    (hbeh : dt.cli.beh AWSMethod clock (mkParams table hk hv esk) = .error e)
    (hr : e.retryable = false)
    (hval : ¬(method = "queryHashKey" ∧ (hk = none ∨ hv = none))) :
    promiseFunction dt AWSMethod method table hk hv fuel esk results none clock
      = (.rejected (withCtx e
          { functionName := method, table := table, hashKeyName := hk
            hashKeyValue := hv, esk := esk, item := none }), clock + 1) := by
  cases fuel with
  | zero =>
      simp only [promiseFunction]
      exact promiseStep_nonRetryable dt AWSMethod method table hk hv _ esk results clock e
        hbeh hr hval
  | succ f =>
      simp only [promiseFunction]
      exact promiseStep_nonRetryable dt AWSMethod method table hk hv _ esk results clock e
        hbeh hr hval

/-- `_promiseFunction` body when the success callback receives a null
payload: `_collecData` throws on `data.LastEvaluatedKey`, the exception
escapes the async callback, and the promise never settles. -/
theorem promiseStep_nullData (dt : DynamoTools) (AWSMethod method table : String)
    (hk hv : Option String)
    (pa : Key → List Item → DynCli → Nat → JsOutcome (List Item) × Nat)
    (esk : Option Key) (results : List Item) (clock : Nat)
    (hbeh : dt.cli.beh AWSMethod clock (mkParams table hk hv esk) = .ok none)
    (hval : ¬(method = "queryHashKey" ∧ (hk = none ∨ hv = none))) :
    promiseStep dt AWSMethod method table hk hv pa esk results none clock
      = (.hung, clock + 1) := by
  simp only [promiseStep, Option.getD, if_neg hval, hbeh, collecData]

/-- `_promiseFunction` body when the payload merely lacks the `Items` field
and carries no cursor: an empty final page, resolving with the results
accumulated so far. -/
theorem promiseStep_emptyPage (dt : DynamoTools) (AWSMethod method table : String)
    (hk hv : Option String)
    (pa : Key → List Item → DynCli → Nat → JsOutcome (List Item) × Nat)
    (esk : Option Key) (results : List Item) (clock : Nat)
    (hbeh : dt.cli.beh AWSMethod clock (mkParams table hk hv esk)
        = .ok (some { items := none, lastEvaluatedKey := none }))
    (hval : ¬(method = "queryHashKey" ∧ (hk = none ∨ hv = none))) :
    promiseStep dt AWSMethod method table hk hv pa esk results none clock
      = (.resolved results, clock + 1) := by
  simp only [promiseStep, Option.getD, if_neg hval, hbeh, collecData]
  simp

/-- C1 (amended): for every operation (document-database query/scan/put, blob
read/write, secret retrieval) whose backend fails every attempt with a
retryable-flagged error, the call fails after the backend is invoked exactly
B + 1 times in total — one initial attempt plus the retrier's B attempts —
where B is the client's retry budget; the secret-store client sets no budget,
so the retrier default of 3 applies there (4 invocations).  The surfaced
error is the final attempt's error, unchanged for the blob and secret
operations and enriched with the context blob for document-database
query/scan; document-database put instead surfaces the first attempt's error,
context attached. -/
theorem C1_retry_exhaustion
    (B : Nat) (hB : 1 ≤ B)
    (errs : Nat → DynErr) (hr : ∀ n, (errs n).retryable = true)
    (name table bucket okey secret : String) (hname : ¬ name = "AmazonDaxClient")
    (hk hv : String) (item : Item) (json : Json) (env : JsEnv)
    (fb : String → Nat → Params → DynResp) (fuel : Nat)
    (rt : String) (hrt : rt ∈ getObjectReturnTypeAllowed) (gzip : Bool) :
    queryHashKey (mkDynamoTools (errCli name errs) (some B) fb) table (some hk) (some hv)
        none [] none fuel 0
      = (.rejected (withCtx (errs B)
          { functionName := "queryHashKey", table := table, hashKeyName := some hk
            hashKeyValue := some hv, esk := none, item := none }), B + 1)
  ∧ scan (mkDynamoTools (errCli name errs) (some B) fb) table (some hk) (some hv)
        none [] none fuel 0
      = (.rejected (withCtx (errs B)
          { functionName := "scan", table := table, hashKeyName := some hk
            hashKeyValue := some hv, esk := none, item := none }), B + 1)
  ∧ putItem (mkDynamoTools (errCli name errs) (some B) fb) table item 0
      = (.rejected (withCtx (errs 0)
          { functionName := "putItem", table := table, hashKeyName := none
            hashKeyValue := none, esk := none, item := some item }), B + 1)
  ∧ getObject env (mkS3Tools (errS3Cli errs) (some B)) bucket okey rt gzip 0
      = (.rejected (errs B), B + 1)
  ∧ putJsonObject env (mkS3Tools (errS3Cli errs) (some B)) bucket okey json 0
      = (.rejected (errs B), B + 1)
  ∧ getSecretValue (mkSecretManagerTools (errSMCli errs)) secret 0
      = (.rejected (errs 3), 4) := by
  have hmaxD : (mkDynamoTools (errCli name errs) (some B) fb).retryMax = B :=
    jsOrNat_of_pos B 5 hB
  have hmaxS : (mkS3Tools (errS3Cli errs) (some B)).retryMax = B :=
    jsOrNat_of_pos B 5 hB
  refine ⟨?_, ?_, ?_, ?_, ?_, ?_⟩
  · have h := promiseFunction_allFail_noDax (mkDynamoTools (errCli name errs) (some B) fb)
      "query" "queryHashKey" table (some hk) (some hv) none [] fuel 0 errs
      hname (fun n p => rfl) (hr 0) (by simp) (by rw [hmaxD]; exact hB)
    rw [hmaxD] at h
    simpa [queryHashKey] using h
  · have h := promiseFunction_allFail_noDax (mkDynamoTools (errCli name errs) (some B) fb)
      "scan" "scan" table (some hk) (some hv) none [] fuel 0 errs
      hname (fun n p => rfl) (hr 0) (by simp) (by rw [hmaxD]; exact hB)
    rw [hmaxD] at h
    simpa [scan] using h
  · have h := putItem_allFail (mkDynamoTools (errCli name errs) (some B) fb) table item errs
      (fun n p => rfl) (hr 0) (by rw [hmaxD]; exact hB)
    rw [hmaxD] at h
    exact h
  · have h := getObject_allFail env (mkS3Tools (errS3Cli errs) (some B)) bucket okey rt gzip errs
      (fun n p => rfl) (hr 0) hrt (by rw [hmaxS]; exact hB)
    rw [hmaxS] at h
    exact h
  · have h := putJsonObject_allFail env (mkS3Tools (errS3Cli errs) (some B)) bucket okey json errs
      (fun n p => rfl) (hr 0) (by rw [hmaxS]; exact hB)
    rw [hmaxS] at h
    exact h
  · exact getSecretValue_allFail (mkSecretManagerTools (errSMCli errs)) secret errs
      (fun n s => rfl) (hr 0) rfl

/-- C1 witness: the amended statement instantiated at budget 2 with concrete
always-retryable failures, every hypothesis discharged. -/
theorem C1_retry_exhaustion_witness :
    (1 ≤ 2 ∧ (∀ n, (transientErrs n).retryable = true) ∧ ¬ "DocumentClient" = "AmazonDaxClient"
      ∧ "object" ∈ getObjectReturnTypeAllowed)
  ∧ queryHashKey (mkDynamoTools (errCli "DocumentClient" transientErrs) (some 2) fbNone)
        "t" (some "k") (some "v") none [] none 5 0
      = (.rejected (withCtx (transientErrs 2)
          { functionName := "queryHashKey", table := "t", hashKeyName := some "k"
            hashKeyValue := some "v", esk := none, item := none }), 3) := by
  refine ⟨⟨by decide, fun n => rfl, by decide, by decide⟩, ?_⟩
  exact (C1_retry_exhaustion 2 (by decide) transientErrs (fun n => rfl) "DocumentClient" "t" "b"
    "k" "s" (by decide) "k" "v" 0 0 envTrivial fbNone 5 "object" (by decide) false).1

/-- C1 counterexample: with retry budget 2, a blob read whose backend fails
every attempt with retryable errors performs 3 backend invocations, not the
2 the claim states ("the backend is invoked exactly B times in total"). -/
theorem C1_budget_counterexample :
    (getObject envTrivial (mkS3Tools (errS3Cli transientErrs) (some 2)) "b" "k" "object" false 0).2
      = 3
  ∧ ¬ (3 : Nat) = 2 := ⟨by decide, by decide⟩

/-- C7: an operation whose backend fails with an error not flagged retryable
rejects after exactly one backend invocation — no retry, no fallback
substitution (the document-database conclusions hold for every fallback
client and attach the context blob; blob and secret operations surface the
error unchanged). -/
theorem C7_nonretryable_single_attempt
    (e : DynErr) (hr : e.retryable = false)
    (dt : DynamoTools) (s3 : S3Tools) (sm : SecretManagerTools)
    (table bucket okey secret : String) (hk hv : String) (item : Item) (json : Json)
    (env : JsEnv) (esk : Option Key) (results : List Item) (cliArg : Option DynCli)
    (fuel : Nat) (rt : String) (hrt : rt ∈ getObjectReturnTypeAllowed) (gzip : Bool)
    (hq : dt.cli.beh "query" 0 (mkParams table (some hk) (some hv) none) = .error e)
    (hs : dt.cli.beh "scan" 0 (mkParams table (some hk) (some hv) none) = .error e)
    (hp : dt.cli.beh "put" 0
        { tableName := table, hashKeyName := none, hashKeyValue := none
          exclusiveStartKey := none, item := some item } = .error e)
    (hg : s3.cli.behGet 0 { bucket := bucket, key := okey } = .error e)
    (hpj : s3.cli.behPut 0 { bucket := bucket, key := okey, body := env.stringify json }
        = .error e)
    (hsm : sm.cli.beh 0 secret = .error e) :
    queryHashKey dt table (some hk) (some hv) esk results cliArg fuel 0
      = (.rejected (withCtx e
          { functionName := "queryHashKey", table := table, hashKeyName := some hk
            hashKeyValue := some hv, esk := none, item := none }), 1)
  ∧ scan dt table (some hk) (some hv) none [] none fuel 0
      = (.rejected (withCtx e
          { functionName := "scan", table := table, hashKeyName := some hk
            hashKeyValue := some hv, esk := none, item := none }), 1)
  ∧ putItem dt table item 0
      = (.rejected (withCtx e
          { functionName := "putItem", table := table, hashKeyName := none
            hashKeyValue := none, esk := none, item := some item }), 1)
  ∧ getObject env s3 bucket okey rt gzip 0 = (.rejected e, 1)
  ∧ putJsonObject env s3 bucket okey json 0 = (.rejected e, 1)
  ∧ getSecretValue sm secret 0 = (.rejected e, 1) := by
  refine ⟨?_, ?_, ?_, ?_, ?_, ?_⟩
  · have h := promiseFunction_nonRetryable dt "query" "queryHashKey" table (some hk) (some hv)
      none [] fuel 0 e hq hr (by simp)
    simpa [queryHashKey] using h
  · have h := promiseFunction_nonRetryable dt "scan" "scan" table (some hk) (some hv)
      none [] fuel 0 e hs hr (by simp)
    simpa [scan] using h
  · simp only [putItem, hp, hr]
    simp
  · simp only [getObject, if_pos hrt, hg, hr]
    simp
  · simp only [putJsonObject, hpj, hr]
    simp
  · simp only [getSecretValue, hsm, hr]
    simp

/-- C7 witness: the statement instantiated with concrete clients whose first
response is a permanent error, every hypothesis discharged. -/
theorem C7_nonretryable_single_attempt_witness :
    ((permanentErr).retryable = false ∧ "object" ∈ getObjectReturnTypeAllowed)
  ∧ getSecretValue (mkSecretManagerTools (errSMCli (fun _ => permanentErr))) "s" 0
      = (.rejected permanentErr, 1) := by
  refine ⟨⟨by decide, by decide⟩, ?_⟩
  exact (C7_nonretryable_single_attempt permanentErr (by decide)
    (mkDynamoTools (errCli "DocumentClient" (fun _ => permanentErr)) none fbNone)
    (mkS3Tools (errS3Cli (fun _ => permanentErr)) none)
    (mkSecretManagerTools (errSMCli (fun _ => permanentErr)))
    "t" "b" "k" "s" "hk" "hv" 0 0 envTrivial none [] none 5 "object" (by decide) false
    rfl rfl rfl rfl rfl rfl).2.2.2.2.2

/-- A DAX-failing primary error (distinct message, for the fallback
counterexample). -/
def primaryBoom : DynErr := { message := "primary boom", retryable := true, moreInfos := none }

/-- A fallback-client error with a message distinct from `primaryBoom`. -/
def fallbackBoom : DynErr := { message := "fallback boom", retryable := true, moreInfos := none }

/-- C2 (amended): for every paged document-database call whose primary client
is the caching-proxy front-end (`AmazonDaxClient`) and where both the
primary's and the fallback's retries are exhausted, the error surfaced to the
caller is the PRIMARY client's final retry error with the standard context
blob attached; the fallback's error is written to the primary error's
`moreInfos` but immediately overwritten by the context blob, so the
fallback's failure does not appear in the surfaced error (the right-hand side
below does not mention the fallback's error stream `fErrs` at all). -/
theorem C2_fallback_error_surfacing
    (dt : DynamoTools) (AWSMethod method table : String)
    (hk hv : Option String) (esk : Option Key) (results : List Item) (fuel clock : Nat)
    (errs fErrs : Nat → DynErr)
    (hcli : dt.cli.name = "AmazonDaxClient")
    (hbeh : ∀ n p, dt.cli.beh AWSMethod n p = .error (errs n))
    (hfb : ∀ n p, dt.cliFallback.beh AWSMethod n p = .error (fErrs n))
    (hr : (errs clock).retryable = true)
    (hval : ¬(method = "queryHashKey" ∧ (hk = none ∨ hv = none)))
    (hmax : 1 ≤ dt.retryMax) :
    promiseFunction dt AWSMethod method table hk hv fuel esk results none clock
      = (.rejected (withCtx (errs (clock + dt.retryMax))
          { functionName := method, table := table, hashKeyName := hk
            hashKeyValue := hv, esk := esk, item := none }),
         clock + 2 * dt.retryMax + 1) := by
  exact promiseFunction_allFail_dax dt AWSMethod method table hk hv esk results fuel clock
    errs fErrs hcli hbeh hfb hr hval hmax

/-- C2 witness: the amended statement at budget 1 with concrete distinct
primary and fallback errors, every hypothesis discharged. -/
theorem C2_fallback_error_surfacing_witness :
    ((errCli "AmazonDaxClient" (fun _ => primaryBoom)).name = "AmazonDaxClient"
      ∧ (primaryBoom).retryable = true ∧ 1 ≤ 1)
  ∧ promiseFunction (mkDynamoTools (errCli "AmazonDaxClient" (fun _ => primaryBoom)) (some 1)
        (fun _ _ _ => Except.error fallbackBoom)) "scan" "scan" "t" none none 5 none [] none 0
      = (.rejected (withCtx primaryBoom
          { functionName := "scan", table := "t", hashKeyName := none
            hashKeyValue := none, esk := none, item := none }), 3) := by
  refine ⟨⟨rfl, by decide, by decide⟩, ?_⟩
  exact C2_fallback_error_surfacing
    (mkDynamoTools (errCli "AmazonDaxClient" (fun _ => primaryBoom)) (some 1)
      (fun _ _ _ => Except.error fallbackBoom)) "scan" "scan" "t" none none none [] 5 0
    (fun _ => primaryBoom) (fun _ => fallbackBoom) rfl (fun n p => rfl) (fun n p => rfl)
    (by decide) (by simp) (by decide)

/-- C2 counterexample: in a concrete run where the DAX primary always fails
with "primary boom" and the fallback always fails with "fallback boom"
(budget 1 each), the surfaced error carries the primary's message and a
context-blob attachment — not the fallback's failure with the primary
attached, as the claim states. -/
theorem C2_fallback_error_counterexample :
    scan (mkDynamoTools (errCli "AmazonDaxClient" (fun _ => primaryBoom)) (some 1)
        (fun _ _ _ => Except.error fallbackBoom)) "t" none none none [] none 5 0
      = (.rejected { message := "primary boom", retryable := true
                     moreInfos := some (.ctx
                       { functionName := "scan", table := "t", hashKeyName := none
                         hashKeyValue := none, esk := none, item := none }) }, 3)
  ∧ ¬ "primary boom" = "fallback boom" := ⟨by decide, by decide⟩

/-- C3: a paged document-database call that exhausts retries against the
primary re-executes against the internally held fallback client if and only
if the primary's constructor name is `AmazonDaxClient`: (i) with any other
primary, the retry-exhausted error propagates after `1 + retryMax`
invocations with an outcome independent of the fallback client (it is
universally quantified and absent from the right-hand side) — no substitution
is attempted; (ii) with a DAX primary and a fallback whose re-execution
succeeds, the call resolves with the fallback's accumulated data. -/
theorem C3_dax_fallback_substitution
    (B : Nat) (hB : 1 ≤ B)
    (errs : Nat → DynErr) (hr : ∀ n, (errs n).retryable = true)
    (AWSMethod method table : String) (hk hv : Option String)
    (hval : ¬(method = "queryHashKey" ∧ (hk = none ∨ hv = none)))
    (esk : Option Key) (results : List Item) (fuel : Nat) (L : List Item) :
    (∀ (name : String), ¬ name = "AmazonDaxClient" →
      ∀ (fb : String → Nat → Params → DynResp),
        promiseFunction (mkDynamoTools (errCli name errs) (some B) fb)
            AWSMethod method table hk hv fuel esk results none 0
          = (.rejected (withCtx (errs B)
              { functionName := method, table := table, hashKeyName := hk
                hashKeyValue := hv, esk := esk, item := none }), B + 1))
  ∧ promiseFunction (mkDynamoTools (errCli "AmazonDaxClient" errs) (some B)
        (fun _ _ _ => Except.ok (some { items := some L, lastEvaluatedKey := none })))
        AWSMethod method table hk hv fuel esk results none 0
      = (.resolved (results ++ L), B + 2) := by
  constructor
  · intro name hname fb
    have hmaxD : (mkDynamoTools (errCli name errs) (some B) fb).retryMax = B :=
      jsOrNat_of_pos B 5 hB
    have h := promiseFunction_allFail_noDax (mkDynamoTools (errCli name errs) (some B) fb)
      AWSMethod method table hk hv esk results fuel 0 errs hname (fun n p => rfl) (hr 0)
      hval (by rw [hmaxD]; exact hB)
    rw [hmaxD] at h
    simpa using h
  · have hmaxD : (mkDynamoTools (errCli "AmazonDaxClient" errs) (some B)
        (fun _ _ _ => Except.ok (some ({ items := some L, lastEvaluatedKey := none } : DynData)))).retryMax = B :=
      jsOrNat_of_pos B 5 hB
    have h := promiseFunction_dax_fallback_ok (mkDynamoTools (errCli "AmazonDaxClient" errs)
        (some B) (fun _ _ _ => Except.ok (some { items := some L, lastEvaluatedKey := none })))
      AWSMethod method table hk hv esk results fuel 0 errs L rfl (fun n p => rfl)
      (fun n p => rfl) (hr 0) hval (by rw [hmaxD]; exact hB)
    rw [hmaxD] at h
    simpa using h

/-- C3 witness: the statement at budget 1, concrete arguments, both
conjuncts; every hypothesis discharged. -/
theorem C3_dax_fallback_substitution_witness :
    (1 ≤ 1 ∧ (∀ n, (transientErrs n).retryable = true)
      ∧ ¬("scan" = "queryHashKey" ∧ ((none : Option String) = none ∨ (none : Option String) = none)))
  ∧ promiseFunction (mkDynamoTools (errCli "AmazonDaxClient" transientErrs) (some 1)
        (fun _ _ _ => Except.ok (some { items := some [41, 42], lastEvaluatedKey := none })))
        "scan" "scan" "t" none none 5 none [] none 0
      = (.resolved [41, 42], 3) := by
  refine ⟨⟨by decide, fun n => rfl, by simp⟩, ?_⟩
  exact (C3_dax_fallback_substitution 1 (by decide) transientErrs (fun n => rfl)
    "scan" "scan" "t" none none (by simp) none [] 5 [41, 42]).2

/-- A client whose response reveals whether the request carried an
`ExclusiveStartKey`: page `[1]` when the cursor is present, `[2]` when it is
absent (never a further cursor). -/
def cursorProbeCli : DynCli :=
  { name := "DocumentClient"
    beh := fun _ _ p =>
      Except.ok (some { items := some (if p.exclusiveStartKey.isSome then [1] else [2])
                        lastEvaluatedKey := none }) }

/-- C6: evaluation at the failing input.  `queryHashKey`, called with start
cursor 42 (and a non-empty results seed and an explicit client), issues its
first backend request WITHOUT the cursor — the probe client answers `[2]`,
the cursor-absent page — because line 35 forwards the assignment expressions
`exclusiveStartKey = null, results = [], cli = null`; the same probe through
`scan`, which forwards its arguments, answers `[1]`. -/
theorem C6_start_cursor_discarded :
    queryHashKey (mkDynamoTools cursorProbeCli none fbNone) "t" (some "k") (some "v")
        (some 42) [7] (some cursorProbeCli) 5 0
      = (.resolved [2], 1)
  ∧ scan (mkDynamoTools cursorProbeCli none fbNone) "t" (some "k") (some "v")
        (some 42) [] none 5 0
      = (.resolved [1], 1) := ⟨by decide, by decide⟩

/-- C8 (amended): clients constructed without a retry-count override get
budget 5 for the document database and the object store; the secret-store
constructor never sets a budget, so the retry wrapper's own default of 3
applies there — behaviourally, sustained retryable failure costs 6 backend
invocations for the first two and 4 for the secret store. -/
theorem C8_default_retry_budget
    (c : DynCli) (s : S3Cli) (m : SMCli)
    (fb : String → Nat → Params → DynResp)
    (errs : Nat → DynErr) (hr : ∀ n, (errs n).retryable = true)
    (table bucket okey secret : String) (item : Item) (env : JsEnv) :
    (mkDynamoTools c none fb).retryMax = 5
  ∧ (mkS3Tools s none).retryMax = 5
  ∧ (mkSecretManagerTools m).retryMax = none
  ∧ putItem (mkDynamoTools (errCli "DocumentClient" errs) none fb) table item 0
      = (.rejected (withCtx (errs 0)
          { functionName := "putItem", table := table, hashKeyName := none
            hashKeyValue := none, esk := none, item := some item }), 6)
  ∧ getObject env (mkS3Tools (errS3Cli errs) none) bucket okey "object" false 0
      = (.rejected (errs 5), 6)
  ∧ getSecretValue (mkSecretManagerTools (errSMCli errs)) secret 0
      = (.rejected (errs 3), 4) := by
  refine ⟨rfl, rfl, rfl, ?_, ?_, ?_⟩
  · have h := putItem_allFail (mkDynamoTools (errCli "DocumentClient" errs) none fb) table item
      errs (fun n p => rfl) (hr 0) (by norm_num [mkDynamoTools, jsOrNat])
    simpa [mkDynamoTools, jsOrNat] using h
  · have h := getObject_allFail env (mkS3Tools (errS3Cli errs) none) bucket okey "object" false
      errs (fun n p => rfl) (hr 0) (by decide) (by norm_num [mkS3Tools, jsOrNat])
    simpa [mkS3Tools, jsOrNat] using h
  · exact getSecretValue_allFail (mkSecretManagerTools (errSMCli errs)) secret errs
      (fun n s2 => rfl) (hr 0) rfl

/-- C8 witness: the amended statement at the concrete transient error stream,
every hypothesis discharged. -/
theorem C8_default_retry_budget_witness :
    (∀ n, (transientErrs n).retryable = true)
  ∧ getSecretValue (mkSecretManagerTools (errSMCli transientErrs)) "s" 0
      = (.rejected (transientErrs 3), 4) := by
  refine ⟨fun n => rfl, ?_⟩
  exact (C8_default_retry_budget (errCli "DocumentClient" transientErrs)
    (errS3Cli transientErrs) (errSMCli transientErrs) fbNone transientErrs (fun n => rfl)
    "t" "b" "k" "s" 0 envTrivial).2.2.2.2.2

/-- C8 counterexample: the secret-store client built without an override
performs 4 total backend invocations under sustained retryable failure — a
budget of 3, not the claimed 5 (which would give 5 retrier attempts, hence
6 total invocations). -/
theorem C8_secret_budget_counterexample :
    (getSecretValue (mkSecretManagerTools (errSMCli transientErrs)) "s" 0).2 = 4
  ∧ ¬ (4 : Nat) = 5 ∧ ¬ (4 : Nat) = 6 := ⟨by decide, by decide, by decide⟩

/-- An object-store client that fails retryably on the first invocation and
then succeeds with a bodyless payload. -/
def s3NoBodyCli : S3Cli :=
  { behGet := fun n _ => if n = 0 then Except.error transientErr else Except.ok { body := none }
    behPut := fun _ _ => Except.ok 0 }

/-- An object-store client that always succeeds with a bodyless payload. -/
def s3BodylessCli : S3Cli :=
  { behGet := fun _ _ => Except.ok { body := none }, behPut := fun _ _ => Except.ok 0 }

/-- C9 (amended): a blob read whose successful backend response has no body
fails with `FILE_NOT_FOUND` on the first-attempt-success path (for every
allowed return type); on the retry-success path no body check is performed —
the bodyless payload goes straight to the shape conversion, so return type
`buffer` without gzip RESOLVES with the absent body, and `string` without
gzip rejects a `TypeError`, not `FILE_NOT_FOUND`. -/
theorem C9_missing_body (env : JsEnv) (s3 : S3Tools) (bucket okey rt : String) (gzip : Bool)
    (hrt : rt ∈ getObjectReturnTypeAllowed)
    (hfirst : s3.cli.behGet 0 { bucket := bucket, key := okey } = .ok { body := none }) :
    getObject env s3 bucket okey rt gzip 0 = (.rejected fileNotFound, 1)
  ∧ getObject env (mkS3Tools s3NoBodyCli (some 1)) bucket okey "buffer" false 0
      = (.resolved (.buf none), 2)
  ∧ getObject env (mkS3Tools s3NoBodyCli (some 1)) bucket okey "string" false 0
      = (.rejected nullBodyTypeError, 2) := by
  refine ⟨?_, ?_, ?_⟩
  · simp only [getObject, if_pos hrt, hfirst]
    simp
  · simp [getObject, s3NoBodyCli, mkS3Tools, jsOrNat, transientErr, utilsRetry, retryLoop,
      formatGetObjectResponse, getObjectReturnTypeAllowed]
  · simp [getObject, s3NoBodyCli, mkS3Tools, jsOrNat, transientErr, utilsRetry, retryLoop,
      formatGetObjectResponse, getObjectReturnTypeAllowed]

/-- C9 witness: the amended statement instantiated at a bodyless backend and
return type `object`, every hypothesis discharged. -/
theorem C9_missing_body_witness :
    ("object" ∈ getObjectReturnTypeAllowed
      ∧ (mkS3Tools s3BodylessCli none).cli.behGet 0 { bucket := "b", key := "k" }
          = .ok { body := none })
  ∧ getObject envTrivial (mkS3Tools s3BodylessCli none) "b" "k" "object" false 0
      = (.rejected fileNotFound, 1) := by
  refine ⟨⟨by decide, rfl⟩, ?_⟩
  exact (C9_missing_body envTrivial (mkS3Tools s3BodylessCli none) "b" "k" "object" false
    (by decide) rfl).1

/-- C9 counterexample: a blob read that fails retryably once and then
succeeds with a bodyless response, requested as a raw buffer, RESOLVES (with
the absent body) instead of failing with the not-found error the claim
states for the retry-success path. -/
theorem C9_retry_path_counterexample :
    getObject envTrivial (mkS3Tools s3NoBodyCli (some 1)) "b" "k" "buffer" false 0
      = (.resolved (.buf none), 2)
  ∧ ¬ ((JsOutcome.resolved (S3Response.buf none) : JsOutcome S3Response)
        = JsOutcome.rejected fileNotFound) := ⟨by decide, by decide⟩

/-- A client whose success callback delivers a null/undefined payload. -/
def nullPayloadCli : DynCli :=
  { name := "DocumentClient", beh := fun _ _ _ => Except.ok none }

/-- A client whose success callback delivers a payload without an `Items`
field and with no cursor. -/
def emptyPageCli : DynCli :=
  { name := "DocumentClient"
    beh := fun _ _ _ => Except.ok (some { items := none, lastEvaluatedKey := none }) }

/-- C10: a paged document-database call whose backend invokes the success
callback with a null payload never settles: `_collecData` throws reading
`data.LastEvaluatedKey`, the exception escapes the async callback, and the
promise hangs; by contrast a payload that merely lacks the `Items` field is an
empty final page and the call resolves with the results accumulated so far. -/
theorem C10_null_payload_hangs
    (dt dt2 : DynamoTools) (AWSMethod method table : String) (hk hv : String)
    (esk : Option Key) (results : List Item) (fuel clock : Nat)
    (hnull : dt.cli.beh AWSMethod clock (mkParams table (some hk) (some hv) esk) = .ok none)
    (hempty : dt2.cli.beh AWSMethod clock (mkParams table (some hk) (some hv) esk)
        = .ok (some { items := none, lastEvaluatedKey := none })) :
    promiseFunction dt AWSMethod method table (some hk) (some hv) fuel esk results none clock
      = (.hung, clock + 1)
  ∧ promiseFunction dt2 AWSMethod method table (some hk) (some hv) fuel esk results none clock
      = (.resolved results, clock + 1) := by
  constructor
  · cases fuel with
    | zero =>
        simp only [promiseFunction]
        exact promiseStep_nullData dt AWSMethod method table (some hk) (some hv) _ esk results
          clock hnull (by simp)
    | succ f =>
        simp only [promiseFunction]
        exact promiseStep_nullData dt AWSMethod method table (some hk) (some hv) _ esk results
          clock hnull (by simp)
  · cases fuel with
    | zero =>
        simp only [promiseFunction]
        exact promiseStep_emptyPage dt2 AWSMethod method table (some hk) (some hv) _ esk results
          clock hempty (by simp)
    | succ f =>
        simp only [promiseFunction]
        exact promiseStep_emptyPage dt2 AWSMethod method table (some hk) (some hv) _ esk results
          clock hempty (by simp)

/-- C10 witness: the statement instantiated at the null-payload and
empty-page clients, every hypothesis discharged. -/
theorem C10_null_payload_hangs_witness :
    (nullPayloadCli.beh "query" 0 (mkParams "t" (some "k") (some "v") none) = .ok none
      ∧ emptyPageCli.beh "query" 0 (mkParams "t" (some "k") (some "v") none)
          = .ok (some { items := none, lastEvaluatedKey := none }))
  ∧ promiseFunction (mkDynamoTools nullPayloadCli none fbNone) "query" "queryHashKey"
        "t" (some "k") (some "v") 5 none [] none 0
      = (.hung, 1) := by
  refine ⟨⟨rfl, rfl⟩, ?_⟩
  exact (C10_null_payload_hangs (mkDynamoTools nullPayloadCli none fbNone)
    (mkDynamoTools emptyPageCli none fbNone) "query" "queryHashKey" "t" "k" "v"
    none [] 5 0 rfl rfl).1

/-- JavaScript truthiness of an optional number (`undefined`/`null` and `0`
are falsy) — the `if(limit)` guard of the newer `_promiseFunction`. -/
def jsTruthyNat (o : Option Nat) : Bool :=
  match o with
  | none => false
  | some n => n ≠ 0

/-- Request object built by the newer `_promiseFunction`
(src/jest.config.js:450-474): as the older `Params` plus the `Limit` field,
set only when the caller's limit is truthy. -/
structure ParamsV2 where
  tableName : String
  Limit : Option Nat
  hashKeyName : Option String
  hashKeyValue : Option String
  exclusiveStartKey : Option Key
deriving DecidableEq, Repr

/-- Request construction of the newer `_promiseFunction`: `params.Limit` when
the limit is truthy, the key-condition block when `hashKeyName` is truthy,
`ExclusiveStartKey` when the cursor is not null.  (The caller-suppliable
`params` seed object defaults to empty and is otherwise only mutated with
these same fields, so the model rebuilds it per page.) -/
def mkParamsV2 (table : String) (hk hv : Option String) (esk : Option Key)
    (limit : Option Nat) : ParamsV2 :=
  { tableName := table
    Limit := if jsTruthyNat limit then limit else none
    hashKeyName := if jsTruthyStr hk then hk else none
    hashKeyValue := if jsTruthyStr hk then hv else none
    exclusiveStartKey := esk }

/-- The result object the newer revision accumulates into and resolves
(`results = ... Items: [] ...` seed, `results.LastEvaluatedKey` assigned in
`_collectData`); `LastEvaluatedKey = none` models the property being
absent/undefined. -/
structure ResultsV2 where
  Items : List Item
  LastEvaluatedKey : Option Key
deriving DecidableEq, Repr

/-- The item-collection part of the newer `_collectData`
(src/jest.config.js:547-556): ONLY when the payload carries a non-empty
`Items` array are the items appended (whole — there is no mid-page
truncation) and `results.LastEvaluatedKey` overwritten with the page's
reported cursor; an items-less page leaves both fields untouched, so an
earlier cursor can survive such a page. -/
def collectItemsV2 (results : ResultsV2) (data : DynData) : ResultsV2 :=
  if 0 < (data.items.getD []).length then
    { Items := results.Items ++ data.items.getD []
      LastEvaluatedKey := data.lastEvaluatedKey }
  else results

/-- The tail of the newer `_collectData` (src/jest.config.js:558): after
collecting, re-enter `_promiseFunction` with the page's cursor if and only if
the payload reported one AND (`limit == null` or the accumulated count is
still below it); otherwise return the results.  `promiseAgain` abstracts the
re-entry (tied at `promiseFunctionV2`); `clock` has already counted the
page's backend invocation. -/
def collectDataV2 (promiseAgain : Key → ResultsV2 → Nat → Option (ResultsV2 × Nat))
    (limit : Option Nat) (data : DynData) (results : ResultsV2) (clock : Nat) :
    Option (ResultsV2 × Nat) :=
  let r2 := collectItemsV2 results data
  match data.lastEvaluatedKey with
  | some k =>
      if belowCeiling limit r2.Items.length then promiseAgain k r2 clock
      else some (r2, clock)
  | none => some (r2, clock)

/-- Embeds the success path of the newer `_promiseFunction`/`_collectData`
(the second revision of DynamoTools appended in src/jest.config.js, lines
426-561): issue the request built by `mkParamsV2` against the backend
(`pages`, invocation-indexed like the clients of the older embedding),
collect, and paginate per `collectDataV2`.  The retry/DAX/error machinery of
this revision is structurally identical to the older revision embedded above
(`promiseStep`), and validation passes by typing; this definition covers the
always-successful, non-null-payload paths that the limit and cursor claims
are about.  Returns `none` when the pagination fuel (model artifact) runs
out, otherwise the resolved results and the number of backend invocations
made. -/
def promiseFunctionV2 (pages : Nat → ParamsV2 → DynData) (table : String)
    (hk hv : Option String) (limit : Option Nat) :
    Nat → Option Key → ResultsV2 → Nat → Option (ResultsV2 × Nat)
  | 0, esk, results, clock =>
      collectDataV2 (fun _ _ _ => none) limit
        (pages clock (mkParamsV2 table hk hv esk limit)) results (clock + 1)
  | fuel + 1, esk, results, clock =>
      collectDataV2
        (fun k r2 c => promiseFunctionV2 pages table hk hv limit fuel (some k) r2 c)
        limit (pages clock (mkParamsV2 table hk hv esk limit)) results (clock + 1)

/-- The cursor the backend reported on the final page the newer revision
executed: mirrors the loop of `promiseFunctionV2` (same pages, same
continuation guard), returning `some` that cursor on normal termination and
`none` on fuel exhaustion. -/
def finalPageCursorV2 (pages : Nat → ParamsV2 → DynData) (table : String)
    (hk hv : Option String) (limit : Option Nat) :
    Nat → Option Key → ResultsV2 → Nat → Option (Option Key)
  | 0, esk, results, clock =>
      let data := pages clock (mkParamsV2 table hk hv esk limit)
      let r2 := collectItemsV2 results data
      match data.lastEvaluatedKey with
      | some k => if belowCeiling limit r2.Items.length then none else some (some k)
      | none => some none
  | fuel + 1, esk, results, clock =>
      let data := pages clock (mkParamsV2 table hk hv esk limit)
      let r2 := collectItemsV2 results data
      match data.lastEvaluatedKey with
      | some k =>
          if belowCeiling limit r2.Items.length then
            finalPageCursorV2 pages table hk hv limit fuel (some k) r2 (clock + 1)
          else some (some k)
      | none => some none

/-- Embeds the newer `queryHashKey` (src/jest.config.js:48-49): all arguments
are forwarded (the older revision's cursor-discarding bug is fixed here); the
results seed defaults to an empty item list with no cursor property. -/
def queryHashKeyV2 (pages : Nat → ParamsV2 → DynData) (table : String) (hk hv : Option String)
    (esk : Option Key) (limit : Option Nat) (fuel clock : Nat) : Option (ResultsV2 × Nat) :=
  promiseFunctionV2 pages table hk hv limit fuel esk
    { Items := [], LastEvaluatedKey := none } clock

/-- Embeds the newer `scan` (src/jest.config.js:208-209): identical
forwarding and seed. -/
def scanV2 (pages : Nat → ParamsV2 → DynData) (table : String) (hk hv : Option String)
    (esk : Option Key) (limit : Option Nat) (fuel clock : Nat) : Option (ResultsV2 × Nat) :=
  promiseFunctionV2 pages table hk hv limit fuel esk
    { Items := [], LastEvaluatedKey := none } clock

/-- When a page stops the loop despite reporting a cursor (the accumulated
count has reached the ceiling) while the count was still below the ceiling on
entry, the page must have carried items, so `_collectData` recorded exactly
that page's reported cursor. -/
theorem collectItemsV2_lek (results : ResultsV2) (data : DynData) (limit : Option Nat)
    (hinv : belowCeiling limit results.Items.length = true)
    (hstop : belowCeiling limit ((collectItemsV2 results data).Items).length = false) :
    (collectItemsV2 results data).LastEvaluatedKey = data.lastEvaluatedKey := by
  unfold collectItemsV2 at hstop ⊢
  split_ifs at hstop ⊢ with h
  · rfl
  · rw [hinv] at hstop
    exact absurd hstop (by simp)

/-- As soon as one collected page brings the count to the ceiling or beyond,
the newer revision requests no further page: exactly one backend invocation,
resolving the whole-page-appended results (whether or not the page reported a
cursor). -/
theorem promiseFunctionV2_stop_at_ceiling (pages : Nat → ParamsV2 → DynData) (table : String)
    (hk hv : Option String) (c : Nat) (fuel : Nat) (esk : Option Key)
    (results : ResultsV2) (clock : Nat)
    (hstop : c ≤ ((collectItemsV2 results
        (pages clock (mkParamsV2 table hk hv esk (some c)))).Items).length) :
    promiseFunctionV2 pages table hk hv (some c) fuel esk results clock
      = some (collectItemsV2 results (pages clock (mkParamsV2 table hk hv esk (some c))),
              clock + 1) := by
  have hb : belowCeiling (some c) ((collectItemsV2 results
      (pages clock (mkParamsV2 table hk hv esk (some c)))).Items).length = false := by
    simp [belowCeiling]
    omega
  cases fuel with
  | zero =>
      simp only [promiseFunctionV2, collectDataV2]
      rcases hd : (pages clock (mkParamsV2 table hk hv esk (some c))).lastEvaluatedKey with _ | k2
      · simp
      · simp [hb]
  | succ f =>
      simp only [promiseFunctionV2, collectDataV2]
      rcases hd : (pages clock (mkParamsV2 table hk hv esk (some c))).lastEvaluatedKey with _ | k2
      · simp
      · simp [hb]

/-- If a run of the newer revision resolves and the final executed page
reported a cursor, the resolved results carry exactly that cursor — provided
the accumulated count was below any ceiling at the start (so every
cursor-reported stop page has items, making the `_collectData` guard record
its cursor). -/
theorem promiseFunctionV2_cursor (pages : Nat → ParamsV2 → DynData) (table : String)
    (hk hv : Option String) (limit : Option Nat) :
    ∀ (fuel : Nat) (esk : Option Key) (results : ResultsV2) (clock : Nat)
      (res : ResultsV2) (n : Nat) (k : Key),
      belowCeiling limit results.Items.length = true →
      promiseFunctionV2 pages table hk hv limit fuel esk results clock = some (res, n) →
      finalPageCursorV2 pages table hk hv limit fuel esk results clock = some (some k) →
      res.LastEvaluatedKey = some k := by
  intro fuel
  induction fuel with
  | zero =>
      intro esk results clock res n k hinv hrun hfinal
      simp only [promiseFunctionV2, collectDataV2] at hrun
      simp only [finalPageCursorV2] at hfinal
      rcases hd : (pages clock (mkParamsV2 table hk hv esk limit)).lastEvaluatedKey with _ | k2
      · rw [hd] at hrun hfinal
        simp at hrun hfinal
      · rw [hd] at hrun hfinal
        by_cases hb : belowCeiling limit ((collectItemsV2 results
            (pages clock (mkParamsV2 table hk hv esk limit))).Items).length = true
        · simp [hb] at hrun
        · simp [hb] at hrun hfinal
          obtain ⟨hres, hn⟩ := hrun
          rw [← hres]
          rw [collectItemsV2_lek results _ limit hinv (by simpa using hb), hd, hfinal]
  | succ f ih =>
      intro esk results clock res n k hinv hrun hfinal
      simp only [promiseFunctionV2, collectDataV2] at hrun
      simp only [finalPageCursorV2] at hfinal
      rcases hd : (pages clock (mkParamsV2 table hk hv esk limit)).lastEvaluatedKey with _ | k2
      · rw [hd] at hrun hfinal
        simp at hrun hfinal
      · rw [hd] at hrun hfinal
        by_cases hb : belowCeiling limit ((collectItemsV2 results
            (pages clock (mkParamsV2 table hk hv esk limit))).Items).length = true
        · simp [hb] at hrun hfinal
          exact ih (some k2) _ (clock + 1) res n k hb hrun hfinal
        · simp [hb] at hrun hfinal
          obtain ⟨hres, hn⟩ := hrun
          rw [← hres]
          rw [collectItemsV2_lek results _ limit hinv (by simpa using hb), hd, hfinal]

/-- A backend whose page reveals whether the request carried a `Limit`
parameter: `[1]` with it, `[2]` without (never a cursor). -/
def limitProbePages : Nat → ParamsV2 → DynData :=
  fun _ p => { items := some (if p.Limit.isSome then [1] else [2]), lastEvaluatedKey := none }

/-- A backend that honours the request's `Limit` the way the repository's own
mock does: under `Limit = 1` it truncates its 2-item page to one item and
reports a continuation cursor; otherwise it returns both items and no
cursor. -/
def limitHonoringPages : Nat → ParamsV2 → DynData :=
  fun _ p =>
    match p.Limit with
    | some 1 => { items := some [10], lastEvaluatedKey := some 7 }
    | _ => { items := some [10, 11], lastEvaluatedKey := none }

/-- A backend that ignores the limit: every page has two items and a
cursor. -/
def twoItemPages : Nat → ParamsV2 → DynData :=
  fun _ _ => { items := some [10, 11], lastEvaluatedKey := some 7 }

/-- A backend whose page is items-less but carries a cursor. -/
def emptyPageWithCursor : Nat → ParamsV2 → DynData :=
  fun _ _ => { items := some [], lastEvaluatedKey := some 9 }

/-- C4 (amended): for every accumulation run with a caller-supplied ceiling,
(i) accumulation stops — no further backend request — as soon as a collected
page brings the count to the ceiling or beyond (one invocation, whole-page
results resolved); (ii) a truthy ceiling is forwarded to the backend as the
request's `Limit` parameter, delegating per-page truncation to the backend;
(iii) when the backend honours `Limit` (as the repository's own mock does), a
ceiling of 1 against a 2-item table returns exactly 1 item with a
continuation cursor; but (iv) pages are appended whole, so a ceiling of 1
against a backend page that overshoots with 2 items returns both items
together with the continuation cursor — the returned count exceeds the
ceiling. -/
theorem C4_ceiling_stop_and_forwarding
    (pages : Nat → ParamsV2 → DynData) (table : String) (hk hv : Option String) (c : Nat)
    (fuel : Nat) (esk : Option Key) (results : ResultsV2) (clock : Nat)
    (hstop : c ≤ ((collectItemsV2 results
        (pages clock (mkParamsV2 table hk hv esk (some c)))).Items).length) :
    promiseFunctionV2 pages table hk hv (some c) fuel esk results clock
      = some (collectItemsV2 results (pages clock (mkParamsV2 table hk hv esk (some c))),
              clock + 1)
  ∧ queryHashKeyV2 limitProbePages "t" (some "k") (some "v") none (some 1) 5 0
      = some ({ Items := [1], LastEvaluatedKey := none }, 1)
  ∧ queryHashKeyV2 limitProbePages "t" (some "k") (some "v") none none 5 0
      = some ({ Items := [2], LastEvaluatedKey := none }, 1)
  ∧ queryHashKeyV2 limitHonoringPages "t" (some "k") (some "v") none (some 1) 5 0
      = some ({ Items := [10], LastEvaluatedKey := some 7 }, 1)
  ∧ scanV2 twoItemPages "t" none none none (some 1) 5 0
      = some ({ Items := [10, 11], LastEvaluatedKey := some 7 }, 1) := by
  refine ⟨?_, by decide, by decide, by decide, by decide⟩
  exact promiseFunctionV2_stop_at_ceiling pages table hk hv c fuel esk results clock hstop

/-- C4 witness: the stop-at-ceiling conclusion at a concrete 2-item page
under ceiling 1, hypothesis discharged. -/
theorem C4_ceiling_stop_and_forwarding_witness :
    1 ≤ ((collectItemsV2 { Items := [], LastEvaluatedKey := none }
        (twoItemPages 0 (mkParamsV2 "t" (some "k") (some "v") none (some 1)))).Items).length
  ∧ promiseFunctionV2 twoItemPages "t" (some "k") (some "v") (some 1) 5 none
        { Items := [], LastEvaluatedKey := none } 0
      = some (collectItemsV2 { Items := [], LastEvaluatedKey := none }
          (twoItemPages 0 (mkParamsV2 "t" (some "k") (some "v") none (some 1))), 1) := by
  refine ⟨by decide, ?_⟩
  exact (C4_ceiling_stop_and_forwarding twoItemPages "t" (some "k") (some "v") 1 5 none
    { Items := [], LastEvaluatedKey := none } 0 (by decide)).1

/-- C4 counterexample: under ceiling 1, a 2-item backend page is appended
whole — the call returns BOTH items, so the returned count exceeds the
ceiling and the claimed "exactly 1 item" is false. -/
theorem C4_whole_page_counterexample :
    queryHashKeyV2 twoItemPages "t" (some "k") (some "v") none (some 1) 5 0
      = some ({ Items := [10, 11], LastEvaluatedKey := some 7 }, 1)
  ∧ ¬ (([10, 11] : List Item).length ≤ 1) := ⟨by decide, by decide⟩

/-- C5 (amended): for every paged call of the newer revision that completes
successfully, the returned value carries, alongside the accumulated item
sequence, the next-page cursor the backend reported on the final executed
page — whenever one was reported AND the accumulated count was below any
caller-supplied ceiling at the start of the run (true for the wrappers' empty
seed and any positive or absent ceiling). -/
theorem C5_final_page_cursor
    (pages : Nat → ParamsV2 → DynData) (table : String) (hk hv : Option String)
    (limit : Option Nat) (fuel : Nat) (esk : Option Key) (seed res : ResultsV2)
    (clock n : Nat) (k : Key)
    (hinv : belowCeiling limit seed.Items.length = true)
    (hrun : promiseFunctionV2 pages table hk hv limit fuel esk seed clock = some (res, n))
    (hfin : finalPageCursorV2 pages table hk hv limit fuel esk seed clock = some (some k)) :
    res.LastEvaluatedKey = some k :=
  promiseFunctionV2_cursor pages table hk hv limit fuel esk seed clock res n k hinv hrun hfin

/-- C5 witness: a ceiling-stopped run whose final (only) page reported cursor
7 resolves with that cursor, every hypothesis discharged. -/
theorem C5_final_page_cursor_witness :
    (belowCeiling (some 1) (([] : List Item)).length = true
      ∧ promiseFunctionV2 twoItemPages "t" (some "k") (some "v") (some 1) 5 none
          { Items := [], LastEvaluatedKey := none } 0
          = some ({ Items := [10, 11], LastEvaluatedKey := some 7 }, 1)
      ∧ finalPageCursorV2 twoItemPages "t" (some "k") (some "v") (some 1) 5 none
          { Items := [], LastEvaluatedKey := none } 0 = some (some 7))
  ∧ ({ Items := [10, 11], LastEvaluatedKey := some 7 } : ResultsV2).LastEvaluatedKey
      = some 7 := by
  refine ⟨⟨by decide, by decide, by decide⟩, ?_⟩
  exact C5_final_page_cursor twoItemPages "t" (some "k") (some "v") (some 1) 5 none
    { Items := [], LastEvaluatedKey := none } { Items := [10, 11], LastEvaluatedKey := some 7 }
    0 1 7 (by decide) (by decide) (by decide)

/-- C5 counterexample: with ceiling 0 (`if(limit)` is falsy so no `Limit` is
sent, and `0 == null` is false so continuation is blocked), an items-less
first page that reports cursor 9 ends the call successfully — the final
executed page reported a cursor, yet the returned value carries none, because
`_collectData` records the cursor only inside the non-empty-`Items` guard. -/
theorem C5_zero_ceiling_counterexample :
    queryHashKeyV2 emptyPageWithCursor "t" (some "k") (some "v") none (some 0) 5 0
      = some ({ Items := [], LastEvaluatedKey := none }, 1)
  ∧ finalPageCursorV2 emptyPageWithCursor "t" (some "k") (some "v") (some 0) 5 none
      { Items := [], LastEvaluatedKey := none } 0 = some (some 9)
  ∧ ¬ ((none : Option Key) = some 9) := ⟨by decide, by decide, by decide⟩
